import Mathlib

set_option linter.unusedVariables false

/- Part 1. Data model and default hooks embedded from the sources under
   src/core/cat/mad_hatter/core_plugin/hooks. -/

/-- Metadata dictionary attached to a langchain Document. The ingestion and prompt
pipelines read the keys `source` (origin of the text) and `when` (upload timestamp,
seconds). Timestamps are modelled as integers. -/
structure Metadata where
  source : String
  when : Int
deriving DecidableEq, Repr

/-- Langchain Document as used by the hooks: a `page_content` string plus a
metadata dictionary. -/
structure Document where
  page_content : String
  metadata : Metadata
deriving DecidableEq, Repr

/-- Embedded from src/core/cat/mad_hatter/core_plugin/hooks/rabbithole.py,
`before_rabbithole_insert_memory(doc, cat)`: returns `doc` unchanged. The
CheshireCat instance type is abstracted as the type parameter `Cat`. -/
def before_rabbithole_insert_memory {Cat : Type} (doc : Document) (cat : Cat) : Document :=
  doc

/-- Embedded from src/core/cat/mad_hatter/core_plugin/hooks/rabbithole.py,
`before_rabbithole_splits_text(doc, cat)`: returns `doc` unchanged. -/
def before_rabbithole_splits_text {Cat : Type} (doc : Document) (cat : Cat) : Document :=
  doc

/-- Embedded from src/core/cat/mad_hatter/core_plugin/hooks/rabbithole.py,
`rabbithole_splits_text(text, chunk_size, chunk_overlap, cat)`. The langchain
RecursiveCharacterTextSplitter is external to this repository: the splitter is
modelled by the parameter `split_documents`, applied to `chunk_size` and
`chunk_overlap` exactly as the source builds the splitter from them. After the
split the source drops every chunk whose `page_content` has length at most 10. -/
def rabbithole_splits_text {Cat : Type}
    (split_documents : Int → Int → List Document → List Document)
    (text : List Document) (chunk_size : Int) (chunk_overlap : Int) (cat : Cat) :
    List Document :=
  let docs := split_documents chunk_size chunk_overlap text
  docs.filter (fun d => d.page_content.length > 10)

/-- Embedded from src/core/cat/mad_hatter/core_plugin/hooks/rabbithole.py,
`after_rabbithole_splitted_text(chunks, cat)`: returns `chunks` unchanged. -/
def after_rabbithole_splitted_text {Cat : Type} (chunks : List Document) (cat : Cat) :
    List Document :=
  chunks

/-- Embedded from src/core/cat/mad_hatter/core_plugin/hooks/rabbithole.py,
`before_rabbithole_stores_documents(docs, cat)`: returns `docs` unchanged. -/
def before_rabbithole_stores_documents {Cat : Type} (docs : List Document) (cat : Cat) :
    List Document :=
  docs

/-- Embedded from src/core/cat/mad_hatter/core_plugin/hooks/prompt.py,
`agent_prompt_episodic_memories(memory_docs, cat)`. Each retrieved memory is a
pair of a Document and a relevance score, the source reads `m[0]`. The helper
`verbal_timedelta` (from cat.utils, outside the visible sources) and the current
time `time.time()` are passed as the parameters `verbal_timedelta` and
`time_now`; times are modelled as integers. -/
def agent_prompt_episodic_memories {Score Cat : Type} (verbal_timedelta : Int → String)
    (time_now : Int) (memory_docs : List (Document × Score)) (cat : Cat) : String :=
  let memory_texts := memory_docs.map (fun m => m.1.page_content.replace "\n" ". ")
  let memory_timestamps := memory_docs.map
    (fun m => " (" ++ verbal_timedelta (time_now - m.1.metadata.when) ++ ")")
  let memory_texts := (memory_texts.zip memory_timestamps).map (fun ab => ab.1 ++ ab.2)
  let memories_separator := "\n  - "
  let memory_content := "## Context of things the Human said in the past: " ++
    memories_separator ++ String.intercalate memories_separator memory_texts
  if memory_texts.length = 0 then "" else memory_content

/-- Embedded from src/core/cat/mad_hatter/core_plugin/hooks/prompt.py,
`agent_prompt_declarative_memories(memory_docs, cat)`. Each retrieved memory is a
pair of a Document and a relevance score, the source reads `m[0]`. -/
def agent_prompt_declarative_memories {Score Cat : Type}
    (memory_docs : List (Document × Score)) (cat : Cat) : String :=
  let memory_texts := memory_docs.map (fun m => m.1.page_content.replace "\n" ". ")
  let memory_sources := memory_docs.map
    (fun m => " (extracted from " ++ m.1.metadata.source ++ ")")
  let memory_texts := (memory_texts.zip memory_sources).map (fun ab => ab.1 ++ ab.2)
  let memories_separator := "\n  - "
  let memory_content := "## Context of documents containing relevant information: " ++
    memories_separator ++ String.intercalate memories_separator memory_texts
  if memory_texts.length = 0 then "" else memory_content

/- Part 2. The plugin lifecycle and hook/tool registry. The `Plugin` class and the
   registry (mad_hatter) are exercised by src/core/tests/mad_hatter/test_plugin.py
   but their implementation is not among the visible sources, so they are
   modelled from the spec. -/

/-- Modelled from the spec: a hook-decorated callable found in a plugin source
file (the Plugin implementation and the decorators module are not among the
visible sources). The decoration carries an optional `name` override and an
optional `priority`; `funcName` is the function identifier. Hook functions take
zero or more domain arguments plus a context object; they are modelled as value
transformers over a value type `α`. Priorities are floating point in the code
and are modelled as rationals. -/
structure HookDecl (α : Type) where
  funcName : String
  declName : Option String
  declPriority : Option Rat
  function : α → α

/-- Modelled from the spec: a tool-decorated callable found in a plugin source
file. The decoration carries an optional `return_direct` flag; `docstring` is
the documentation text of the function, when present. -/
structure ToolDecl (α : Type) where
  funcName : String
  docstring : Option String
  declReturnDirect : Option Bool
  func : α → α

/-- Modelled from the spec: one importable source file of a plugin directory,
with the hook-decorated and tool-decorated callables it contains, in order of
appearance. -/
structure SourceFile (α : Type) where
  fileName : String
  hooks : List (HookDecl α)
  tools : List (ToolDecl α)

/-- Modelled from the spec: the optional metadata file of a plugin directory.
Only the fields the claims touch are modelled; a missing field falls back to a
default at manifest-load time. -/
structure ManifestFile where
  name : Option String
  description : Option String

/-- Modelled from the spec: one field of a declared settings model, with an
optional default value. Settings values are modelled as integers. -/
structure SettingsField where
  fieldName : String
  default : Option Int
deriving DecidableEq, Repr

/-- Modelled from the spec: an optional settings-model declaration discovered
alongside a plugin source, used to build the settings schema. -/
structure SettingsModel where
  title : String
  fields : List SettingsField

/-- Modelled from the spec: the on-disk contents a Plugin is constructed over:
whether the path exists, the importable source files under it, the optional
metadata file, the optional persisted settings document, and the optional
settings model. -/
structure PluginFolder (α : Type) where
  pathExists : Bool
  sourceFiles : List (SourceFile α)
  manifestFile : Option ManifestFile
  settingsFile : Option (List (String × Int))
  settingsModel : Option SettingsModel

/-- Modelled from the spec: the plugin manifest; `id` is always derived from the
directory name, never read from the file; `name` defaults to the directory name
and `description` to "Description not found" when the file or the field is
missing. Fields of the manifest file not touched by the claims are omitted. -/
structure PluginManifest where
  id : String
  name : String
  description : String
deriving DecidableEq, Repr

/-- Modelled from the spec: a registered hook record: owning plugin id, hook
point name, priority (default 0.0 applied at extraction), and the callable. -/
structure CatHook (α : Type) where
  plugin_id : String
  name : String
  priority : Rat
  function : α → α

/-- Modelled from the spec: a registered tool record: owning plugin id, name,
description shown to the agent, `return_direct` flag (default false applied at
extraction), and the callable. -/
structure CatTool (α : Type) where
  plugin_id : String
  name : String
  description : String
  return_direct : Bool
  func : α → α

/-- Modelled from the spec: the structured settings schema: a title, the string
"object" as its type, and a properties mapping. -/
structure SettingsSchema where
  title : String
  type : String
  properties : List SettingsField
deriving DecidableEq, Repr

/-- Modelled from the spec: the error raised when a Plugin cannot be
constructed; its message must contain "Cannot create". -/
structure PluginLoadError where
  message : String
deriving DecidableEq, Repr

/-- Splits a character list at every slash, keeping empty segments. -/
def pathSegments : List Char → List (List Char)
  | [] => [[]]
  | c :: cs =>
    match pathSegments cs with
    | [] => if c = '/' then [[], []] else [[c]]
    | s :: ss => if c = '/' then [] :: s :: ss else (c :: s) :: ss

/-- Modelled from the spec: the plugin id is the final path segment (the folder
name), ignoring empty segments such as the one after a trailing slash. -/
def pathBasename (path : String) : String :=
  ⟨((pathSegments path.data).filter (fun s => s ≠ [])).getLastD []⟩

/-- First paragraph of a docstring: everything before the first blank line. -/
def firstParagraphAux : List Char → List Char
  | [] => []
  | '\n' :: '\n' :: _ => []
  | c :: cs => c :: firstParagraphAux cs

/-- First paragraph of a docstring, as a string. -/
def firstParagraph (s : String) : String :=
  ⟨firstParagraphAux s.data⟩

/-- Modelled from the spec: load the manifest of a plugin directory. `id` is
always the plugin id derived from the directory name; `name` falls back to the
directory name and `description` to "Description not found" when the metadata
file or the field is absent. -/
def loadManifest (id : String) {α : Type} (folder : PluginFolder α) : PluginManifest :=
  { id := id
    name := (folder.manifestFile.bind (fun mf => mf.name)).getD id
    description :=
      (folder.manifestFile.bind (fun mf => mf.description)).getD "Description not found" }

/-- Modelled from the spec: the Symbol Extractor pass for hooks: every
hook-decorated callable of every source file, in extraction order, with the
decoration defaults applied: `name` defaults to the function identifier,
`priority` to 0.0, and `plugin_id` is the owning plugin id. -/
def extractHooks {α : Type} (plugin_id : String) (folder : PluginFolder α) :
    List (CatHook α) :=
  (folder.sourceFiles.map (fun f => f.hooks.map (fun d =>
    { plugin_id := plugin_id
      name := d.declName.getD d.funcName
      priority := d.declPriority.getD 0
      function := d.function }))).flatten

/-- Modelled from the spec: the Symbol Extractor pass for tools: every
tool-decorated callable of every source file, in extraction order, with the
defaults applied: `description` is the first paragraph of the docstring or a
fallback string when absent, `return_direct` defaults to false. -/
def extractTools {α : Type} (plugin_id : String) (folder : PluginFolder α) :
    List (CatTool α) :=
  (folder.sourceFiles.map (fun f => f.tools.map (fun d =>
    { plugin_id := plugin_id
      name := d.funcName
      description := (d.docstring.map firstParagraph).getD "No description"
      return_direct := d.declReturnDirect.getD false
      func := d.func }))).flatten

/-- Modelled from the spec: one Plugin per directory: its path, id, activation
state, manifest, current hook and tool records, and the directory contents it
was constructed over (re-read on activation). -/
structure Plugin (α : Type) where
  path : String
  id : String
  active : Bool
  manifest : PluginManifest
  hooks : List (CatHook α)
  tools : List (CatTool α)
  folder : PluginFolder α

/-- Modelled from the spec: `Plugin(path, active)` fails with a PluginLoadError
whose message contains "Cannot create" when the path does not exist or contains
no importable source files; otherwise it derives the id from the final path
segment, loads the manifest, and extracts hooks and tools only when active. -/
def Plugin.construct {α : Type} (path : String) (active : Bool)
    (folder : PluginFolder α) : Except PluginLoadError (Plugin α) :=
  if folder.pathExists && !folder.sourceFiles.isEmpty then
    let id := pathBasename path
    Except.ok
      { path := path
        id := id
        active := active
        manifest := loadManifest id folder
        hooks := if active then extractHooks id folder else []
        tools := if active then extractTools id folder else []
        folder := folder }
  else
    Except.error { message := "Cannot create plugin: " ++ path }

/-- Modelled from the spec: `activate()` sets `active = True` and re-runs the
Symbol Extractor over the plugin sources, repopulating `hooks` and `tools`. -/
def Plugin.activate {α : Type} (p : Plugin α) : Plugin α :=
  { p with
    active := true
    hooks := extractHooks p.id p.folder
    tools := extractTools p.id p.folder }

/-- Modelled from the spec: `deactivate()` sets `active = False` and clears
`hooks` and `tools` to empty sequences. -/
def Plugin.deactivate {α : Type} (p : Plugin α) : Plugin α :=
  { p with
    active := false
    hooks := []
    tools := [] }

/-- Modelled from the spec: merge a settings document with the defaults of the
declared settings model, when one exists: explicitly given keys win, model
fields absent from the document are appended with their default value. -/
def fillDefaults (model : Option SettingsModel) (doc : List (String × Int)) :
    List (String × Int) :=
  match model with
  | none => doc
  | some m =>
    doc ++ m.fields.filterMap (fun f =>
      if (doc.lookup f.fieldName).isNone then f.default.map (fun v => (f.fieldName, v))
      else none)

/-- Modelled from the spec: `load_settings()` returns the persisted document, or
an empty mapping when no settings file exists; when a settings model is
declared, defaults are filled in for missing keys. -/
def Plugin.load_settings {α : Type} (p : Plugin α) : List (String × Int) :=
  match p.folder.settingsFile with
  | none => []
  | some doc => fillDefaults p.folder.settingsModel doc

/-- Modelled from the spec: `save_settings(values)` merges the values with the
model defaults, overwrites the whole settings file with the resulting document,
and returns the written document; `hooks` and `tools` are untouched. -/
def Plugin.save_settings {α : Type} (p : Plugin α) (values : List (String × Int)) :
    Plugin α × List (String × Int) :=
  let written := fillDefaults p.folder.settingsModel values
  ({ p with folder := { p.folder with settingsFile := some written } }, written)

/-- Modelled from the spec: `get_settings_schema()` returns the schema of the
declared settings model, or the schema of an empty structure (title "BaseModel"
as in the tests, type "object", no properties) when none is declared. -/
def Plugin.get_settings_schema {α : Type} (p : Plugin α) : SettingsSchema :=
  match p.folder.settingsModel with
  | none => { title := "BaseModel", type := "object", properties := [] }
  | some m => { title := m.title, type := "object", properties := m.fields }

/-- The state invariant claimed by the spec for every Plugin: `hooks` and
`tools` are both empty exactly when the plugin is inactive. -/
def Plugin.invariant {α : Type} (p : Plugin α) : Prop :=
  (p.hooks = [] ∧ p.tools = []) ↔ p.active = false

/-- Modelled from the spec: `hookLe a b` holds when hook `a` may run before hook
`b` in a chain: the priority of `a` is at least the priority of `b` (higher
priority runs earlier). -/
def hookLe {α : Type} (a b : CatHook α) : Prop :=
  b.priority ≤ a.priority

instance instDecidableRelHookLe {α : Type} : DecidableRel (@hookLe α) :=
  fun a b => inferInstanceAs (Decidable (b.priority ≤ a.priority))

/-- Modelled from the spec: the registry resolves the chain for a hook name: all
registered hooks with that name, sorted by descending priority with a stable
sort, so that ties keep registration order (first registered wins). -/
def resolve_chain {α : Type} (hooks : List (CatHook α)) (name : String) :
    List (CatHook α) :=
  List.insertionSort hookLe (hooks.filter (fun h => h.name = name))

/-- Modelled from the spec: `call_hook(name, seed)` threads the seed through the
resolved chain, each hook consuming the previous return value as its leading
input, returning the final value; with no hooks registered for the name the
seed is returned unmodified. -/
def call_hook {α : Type} (hooks : List (CatHook α)) (name : String) (seed : α) : α :=
  (resolve_chain hooks name).foldl (fun v h => h.function v) seed

/- Part 3. Concrete fixtures mirroring tests/mocks/mock_plugin of the test
   suite, used as witnesses. -/

/-- The hook declaration of the mock plugin: the function named
`before_cat_sends_message`, decorated with priority 2.0 and no name override. -/
def mockHookDecl : HookDecl Nat :=
  { funcName := "before_cat_sends_message"
    declName := none
    declPriority := some 2
    function := fun n => n + 1 }

/-- The tool declaration of the mock plugin: the function named `mock_tool`,
decorated with `return_direct = True`, whose docstring mentions its own name. -/
def mockToolDecl : ToolDecl Nat :=
  { funcName := "mock_tool"
    docstring := some "Used to test mock_tool extraction."
    declReturnDirect := some true
    func := fun n => n }

/-- The directory contents of the mock plugin: one source file holding the hook
and the tool, a metadata file declaring only the name MockPlugin, no settings
file and no settings model. -/
def mockFolder : PluginFolder Nat :=
  { pathExists := true
    sourceFiles := [{ fileName := "mock_plugin.py"
                      hooks := [mockHookDecl]
                      tools := [mockToolDecl] }]
    manifestFile := some { name := some "MockPlugin", description := none }
    settingsFile := none
    settingsModel := none }

/-- Path of the mock plugin as written in the tests. -/
def mockPath : String := "tests/mocks/mock_plugin/"

/-- The Plugin value obtained by constructing the mock plugin inactive. -/
def mockPluginOff : Plugin Nat :=
  { path := mockPath
    id := "mock_plugin"
    active := false
    manifest := { id := "mock_plugin"
                  name := "MockPlugin"
                  description := "Description not found" }
    hooks := []
    tools := []
    folder := mockFolder }

/-- The Plugin value obtained by constructing the mock plugin active: one hook
record and one tool record extracted from the single source file. -/
def mockPluginOn : Plugin Nat :=
  { path := mockPath
    id := "mock_plugin"
    active := true
    manifest := { id := "mock_plugin"
                  name := "MockPlugin"
                  description := "Description not found" }
    hooks := [{ plugin_id := "mock_plugin"
                name := "before_cat_sends_message"
                priority := 2
                function := mockHookDecl.function }]
    tools := [{ plugin_id := "mock_plugin"
                name := "mock_tool"
                description := "Used to test mock_tool extraction."
                return_direct := true
                func := mockToolDecl.func }]
    folder := mockFolder }

/-- A plugin directory whose single importable source file contains no decorated
callables at all. -/
def undecoratedFolder : PluginFolder Nat :=
  { pathExists := true
    sourceFiles := [{ fileName := "plain.py", hooks := [], tools := [] }]
    manifestFile := none
    settingsFile := none
    settingsModel := none }

/-- The Plugin value obtained by constructing `undecoratedFolder` active. -/
def undecoratedPlugin : Plugin Nat :=
  { path := "plugins/undecorated"
    id := "undecorated"
    active := true
    manifest := { id := "undecorated"
                  name := "undecorated"
                  description := "Description not found" }
    hooks := []
    tools := []
    folder := undecoratedFolder }

/-- A nonexistent plugin directory. -/
def missingFolder : PluginFolder Nat :=
  { pathExists := false
    sourceFiles := []
    manifestFile := none
    settingsFile := none
    settingsModel := none }

/- Part 4. Theorems settling the claims. -/

/-- C1 counterexample: constructing a Plugin over a directory whose only
importable source file contains no decorated callables, with `active = True`,
succeeds and yields a plugin that is active while `hooks` and `tools` are both
empty, so the state invariant `hooks == [] and tools == [] iff active == False`
claimed for every Plugin fails right after construction. -/
theorem plugin_invariant_counterexample :
    Plugin.construct "plugins/undecorated" true undecoratedFolder =
        Except.ok undecoratedPlugin ∧
    undecoratedPlugin.active = true ∧
    undecoratedPlugin.hooks = [] ∧
    undecoratedPlugin.tools = [] ∧
    ¬ undecoratedPlugin.invariant :=
  ⟨rfl, rfl, rfl, rfl, by simp [Plugin.invariant, undecoratedPlugin]⟩

/-- C1 (amended): `deactivate()` always leaves an inactive plugin with empty
hooks and tools; `activate()` always yields an active plugin whose hooks and
tools are exactly one extraction pass over the sources (so repeated activation
yields the same set, with no duplicates); both operations are idempotent; a
plugin constructed inactive has empty hooks and tools; and the full invariant
`hooks == [] and tools == [] iff active == False` holds after construction,
after `activate()` and after `deactivate()` for every constructed plugin whose
sources contain at least one decorated callable. -/
theorem plugin_lifecycle_invariant :
    (∀ (α : Type) (p : Plugin α),
        (p.activate).active = true ∧
        (p.activate).hooks = extractHooks p.id p.folder ∧
        (p.activate).tools = extractTools p.id p.folder ∧
        (p.deactivate).active = false ∧
        (p.deactivate).hooks = [] ∧
        (p.deactivate).tools = [] ∧
        p.activate.activate = p.activate ∧
        p.deactivate.deactivate = p.deactivate) ∧
    (∀ (α : Type) (path : String) (active : Bool) (folder : PluginFolder α)
        (p : Plugin α), Plugin.construct path active folder = Except.ok p →
        p.active = false → p.hooks = [] ∧ p.tools = []) ∧
    (∀ (α : Type) (path : String) (active : Bool) (folder : PluginFolder α)
        (p : Plugin α), Plugin.construct path active folder = Except.ok p →
        (extractHooks p.id p.folder ≠ [] ∨ extractTools p.id p.folder ≠ []) →
        p.invariant ∧ p.activate.invariant ∧ p.deactivate.invariant) := by
  refine ⟨fun α p => ⟨rfl, rfl, rfl, rfl, rfl, rfl, rfl, rfl⟩, ?_, ?_⟩
  · intro α path active folder p hcon hact
    unfold Plugin.construct at hcon
    split at hcon
    · cases hcon
      simp only at hact
      subst hact
      exact ⟨rfl, rfl⟩
    · simp at hcon
  · intro α path active folder p hcon hne
    unfold Plugin.construct at hcon
    split at hcon
    · cases hcon
      cases active with
      | false =>
        refine ⟨by simp [Plugin.invariant], by simp [Plugin.invariant, Plugin.activate] at hne ⊢; tauto,
          by simp [Plugin.invariant, Plugin.deactivate]⟩
      | true =>
        refine ⟨by simp [Plugin.invariant] at hne ⊢; tauto,
          by simp [Plugin.invariant, Plugin.activate] at hne ⊢; tauto,
          by simp [Plugin.invariant, Plugin.deactivate]⟩
    · simp at hcon

/-- Witness for the C1 theorem: the mock plugin constructed inactive satisfies
the inactive invariant, and its sources contain a decorated callable, so the
full invariant holds for it, after activation and after deactivation. -/
theorem plugin_lifecycle_invariant_witness :
    Plugin.construct mockPath false mockFolder = Except.ok mockPluginOff ∧
    mockPluginOff.active = false ∧
    (mockPluginOff.hooks = [] ∧ mockPluginOff.tools = []) ∧
    (mockPluginOff.invariant ∧ mockPluginOff.activate.invariant ∧
      mockPluginOff.deactivate.invariant) :=
  ⟨rfl, rfl,
    plugin_lifecycle_invariant.2.1 Nat mockPath false mockFolder mockPluginOff rfl rfl,
    plugin_lifecycle_invariant.2.2 Nat mockPath false mockFolder mockPluginOff rfl
      (Or.inl (by simp [mockPluginOff, extractHooks, mockFolder]))⟩

/-- C2: `call_hook` resolves the hooks registered under a name into a chain
sorted by descending priority (stable, so ties keep registration order) and
folds the seed through their functions, returning the last output. With two
hooks named X of priorities 1.0 and 5.0, in either registration order, the
priority 5.0 function is applied to the seed first, then the priority 1.0
function, whose output is returned; with two hooks of equal priority the first
registered is applied first. -/
theorem call_hook_priority_chain :
    (∀ (α : Type) (hooks : List (CatHook α)) (name : String),
        (resolve_chain hooks name).Sorted hookLe) ∧
    (∀ (α : Type) (hooks : List (CatHook α)) (name : String) (seed : α),
        call_hook hooks name seed =
          (resolve_chain hooks name).foldl (fun v h => h.function v) seed) ∧
    (∀ (α : Type) (pid1 pid2 : String) (f g : α → α) (seed : α),
        call_hook [⟨pid1, "X", 1, f⟩, ⟨pid2, "X", 5, g⟩] "X" seed = f (g seed) ∧
        call_hook [⟨pid1, "X", 5, g⟩, ⟨pid2, "X", 1, f⟩] "X" seed = f (g seed)) ∧
    (∀ (α : Type) (p : Rat) (f g : α → α) (seed : α),
        call_hook [⟨"first", "X", p, f⟩, ⟨"second", "X", p, g⟩] "X" seed =
          g (f seed)) := by
  refine ⟨?_, fun α hooks name seed => rfl, fun α pid1 pid2 f g seed => ⟨rfl, rfl⟩, ?_⟩
  · intro α hooks name
    haveI : IsTotal (CatHook α) hookLe := ⟨fun a b => le_total b.priority a.priority⟩
    haveI : IsTrans (CatHook α) hookLe := ⟨fun a b c h1 h2 => le_trans h2 h1⟩
    exact List.sorted_insertionSort _ _
  · intro α p f g seed
    simp [call_hook, resolve_chain, List.insertionSort, List.orderedInsert, hookLe]

/-- C3: over a plugin directory containing exactly one hook-decorated function
resolving to the name `before_cat_sends_message` with declared priority 2.0 and
exactly one tool-decorated function named `mock_tool` with `return_direct =
True` and a docstring whose first paragraph mentions `mock_tool` (as the mock
plugin docstring does), construction with `active = True` yields exactly one
hook record carrying the plugin id, that name and priority 2.0, and exactly one
tool record carrying the plugin id, the name `mock_tool`, a description
containing `mock_tool` and `return_direct = True`; constructing inactive and
then calling `activate()` yields the very same plugin. -/
theorem plugin_single_hook_tool
    (α : Type) (path fn : String) (hd : HookDecl α) (td : ToolDecl α)
    (mf : Option ManifestFile) (sf : Option (List (String × Int)))
    (sm : Option SettingsModel) (ds : String)
    (hname : hd.declName.getD hd.funcName = "before_cat_sends_message")
    (hprio : hd.declPriority = some 2)
    (tname : td.funcName = "mock_tool")
    (tret : td.declReturnDirect = some true)
    (tdoc : td.docstring = some ds)
    (hds : ("mock_tool").data <:+: (firstParagraph ds).data) :
    ∀ p : Plugin α,
      Plugin.construct path true ⟨true, [⟨fn, [hd], [td]⟩], mf, sf, sm⟩ = Except.ok p →
      p.hooks = [{ plugin_id := p.id
                   name := "before_cat_sends_message"
                   priority := 2
                   function := hd.function }] ∧
      p.tools = [{ plugin_id := p.id
                   name := "mock_tool"
                   description := firstParagraph ds
                   return_direct := true
                   func := td.func }] ∧
      (∀ t ∈ p.tools, ("mock_tool").data <:+: t.description.data) ∧
      (Plugin.construct path false ⟨true, [⟨fn, [hd], [td]⟩], mf, sf, sm⟩).map
          Plugin.activate = Except.ok p := by
  intro p hcon
  unfold Plugin.construct at hcon
  simp only [List.isEmpty_cons, Bool.not_false, Bool.and_self, if_true] at hcon
  cases hcon
  refine ⟨?_, ?_, ?_, ?_⟩
  · simp [extractHooks, hname, hprio]
  · simp [extractTools, tname, tret, tdoc]
  · intro t ht
    simp [extractTools, tname, tret, tdoc] at ht
    subst ht
    simpa using hds
  · rfl

/-- Witness for the C3 theorem at the mock plugin: constructing the mock folder
active yields exactly the one hook record and the one tool record of
`mockPluginOn`. -/
theorem plugin_single_hook_tool_witness :
    Plugin.construct mockPath true mockFolder = Except.ok mockPluginOn ∧
    (mockPluginOn.hooks = [{ plugin_id := mockPluginOn.id
                             name := "before_cat_sends_message"
                             priority := 2
                             function := mockHookDecl.function }] ∧
      mockPluginOn.tools = [{ plugin_id := mockPluginOn.id
                              name := "mock_tool"
                              description := firstParagraph "Used to test mock_tool extraction."
                              return_direct := true
                              func := mockToolDecl.func }] ∧
      (∀ t ∈ mockPluginOn.tools, ("mock_tool").data <:+: t.description.data) ∧
      (Plugin.construct mockPath false mockFolder).map Plugin.activate =
        Except.ok mockPluginOn) :=
  ⟨rfl,
    plugin_single_hook_tool Nat mockPath "mock_plugin.py" mockHookDecl mockToolDecl
      (some { name := some "MockPlugin", description := none }) none none
      "Used to test mock_tool extraction." rfl rfl rfl rfl rfl (by decide)
      mockPluginOn rfl⟩

/-- C4: constructing a Plugin over a path that does not exist, or over a
directory with no importable source files, fails with a PluginLoadError whose
message contains the substring "Cannot create"; construction never succeeds in
either case. -/
theorem plugin_construct_fails
    (α : Type) (path : String) (active : Bool) (folder : PluginFolder α)
    (h : folder.pathExists = false ∨ folder.sourceFiles = []) :
    Plugin.construct path active folder =
      Except.error { message := "Cannot create plugin: " ++ path } ∧
    ("Cannot create").data <:+: ("Cannot create plugin: " ++ path).data := by
  constructor
  · unfold Plugin.construct
    rcases h with h | h <;> simp [h]
  · refine ⟨[], (" plugin: " ++ path).data, ?_⟩
    simp only [List.nil_append, String.data_append]
    rw [← List.append_assoc]
    rfl

/-- Witness for the C4 theorem at a nonexistent directory. -/
theorem plugin_construct_fails_witness :
    (missingFolder.pathExists = false ∨ missingFolder.sourceFiles = []) ∧
    (Plugin.construct "/non/existent/folder" true missingFolder =
        Except.error { message := "Cannot create plugin: /non/existent/folder" } ∧
      ("Cannot create").data <:+:
        ("Cannot create plugin: " ++ "/non/existent/folder").data) :=
  ⟨Or.inl rfl,
    plugin_construct_fails Nat "/non/existent/folder" true missingFolder (Or.inl rfl)⟩

/-- C5: `load_settings()` returns the empty mapping for every plugin with no
settings file on disk; and for every plugin, after `save_settings({"a": 42})` a
subsequent `load_settings()` (and the document returned by the save itself)
maps "a" to 42. -/
theorem plugin_settings_roundtrip :
    (∀ (α : Type) (p : Plugin α), p.folder.settingsFile = none →
        p.load_settings = []) ∧
    (∀ (α : Type) (p : Plugin α),
        ((p.save_settings [("a", 42)]).1.load_settings).lookup "a" = some 42 ∧
        ((p.save_settings [("a", 42)]).2).lookup "a" = some 42) := by
  constructor
  · intro α p h
    simp [Plugin.load_settings, h]
  · intro α p
    cases hm : p.folder.settingsModel with
    | none =>
      simp [Plugin.save_settings, Plugin.load_settings, fillDefaults, hm, List.lookup]
    | some m =>
      simp [Plugin.save_settings, Plugin.load_settings, fillDefaults, hm, List.lookup]

/-- Witness for the C5 theorem at the mock plugin, which has no settings file. -/
theorem plugin_settings_roundtrip_witness :
    mockPluginOff.folder.settingsFile = none ∧
    mockPluginOff.load_settings = [] ∧
    ((mockPluginOff.save_settings [("a", 42)]).1.load_settings).lookup "a" =
      some 42 :=
  ⟨rfl, plugin_settings_roundtrip.1 Nat mockPluginOff rfl,
    (plugin_settings_roundtrip.2 Nat mockPluginOff).1⟩

/-- C6: constructing any valid plugin directory with `active = False` yields a
plugin with no hooks, no tools, `active = False`, an id equal to the final
segment of the path, and a non-null manifest whose id field equals the plugin
id. -/
theorem plugin_construct_inactive
    (α : Type) (path : String) (folder : PluginFolder α)
    (hex : folder.pathExists = true) (hsrc : folder.sourceFiles ≠ []) :
    ∃ p : Plugin α, Plugin.construct path false folder = Except.ok p ∧
      p.hooks = [] ∧ p.tools = [] ∧ p.active = false ∧
      p.id = pathBasename path ∧ p.manifest.id = p.id := by
  have hne : folder.sourceFiles.isEmpty = false := by
    cases hs : folder.sourceFiles with
    | nil => exact absurd hs hsrc
    | cons a l => rfl
  unfold Plugin.construct
  simp only [hex, hne, Bool.not_false, Bool.and_self, if_true]
  exact ⟨_, rfl, rfl, rfl, rfl, rfl, rfl⟩

/-- Witness for the C6 theorem at the mock plugin directory. -/
theorem plugin_construct_inactive_witness :
    mockFolder.pathExists = true ∧ mockFolder.sourceFiles ≠ [] ∧
    (∃ p : Plugin Nat, Plugin.construct mockPath false mockFolder = Except.ok p ∧
      p.hooks = [] ∧ p.tools = [] ∧ p.active = false ∧
      p.id = pathBasename mockPath ∧ p.manifest.id = p.id) :=
  ⟨rfl, by simp [mockFolder],
    plugin_construct_inactive Nat mockPath mockFolder rfl (by simp [mockFolder])⟩

/-- C7: for every plugin that declares no settings model,
`get_settings_schema()` returns, without failing, the schema of an empty
structure: type "object", empty properties (and the title "BaseModel" pinned by
the tests). -/
theorem plugin_empty_settings_schema
    (α : Type) (p : Plugin α) (h : p.folder.settingsModel = none) :
    p.get_settings_schema.type = "object" ∧
    p.get_settings_schema.properties = [] ∧
    p.get_settings_schema.title = "BaseModel" := by
  simp [Plugin.get_settings_schema, h]

/-- Witness for the C7 theorem at the mock plugin, which declares no settings
model. -/
theorem plugin_empty_settings_schema_witness :
    mockPluginOff.folder.settingsModel = none ∧
    (mockPluginOff.get_settings_schema.type = "object" ∧
      mockPluginOff.get_settings_schema.properties = [] ∧
      mockPluginOff.get_settings_schema.title = "BaseModel") :=
  ⟨rfl, plugin_empty_settings_schema Nat mockPluginOff rfl⟩

/-- C8: every Document in the list returned by the default
`rabbithole_splits_text` hook has `page_content` strictly longer than 10
characters, for every splitter, input list, chunk size and chunk overlap. -/
theorem rabbithole_splits_text_min_length
    (Cat : Type) (split_documents : Int → Int → List Document → List Document)
    (text : List Document) (chunk_size chunk_overlap : Int) (cat : Cat)
    (d : Document)
    (hd : d ∈ rabbithole_splits_text split_documents text chunk_size
      chunk_overlap cat) :
    d.page_content.length > 10 := by
  unfold rabbithole_splits_text at hd
  simp only [List.mem_filter, decide_eq_true_eq] at hd
  exact hd.2

/-- Witness for the C8 theorem: a splitter returning its input unchanged, on a
list holding one long and one short document; the long document survives the
filter and indeed has more than 10 characters. -/
theorem rabbithole_splits_text_min_length_witness :
    ({ page_content := "long enough content"
       metadata := { source := "s", when := 0 } } : Document) ∈
      rabbithole_splits_text (fun cs co l => l)
        [{ page_content := "long enough content"
           metadata := { source := "s", when := 0 } },
         { page_content := "pg 3", metadata := { source := "s", when := 0 } }]
        512 128 () ∧
    ({ page_content := "long enough content"
       metadata := { source := "s", when := 0 } } : Document).page_content.length
      > 10 :=
  ⟨by decide,
    rabbithole_splits_text_min_length Unit (fun cs co l => l)
      [{ page_content := "long enough content"
         metadata := { source := "s", when := 0 } },
       { page_content := "pg 3", metadata := { source := "s", when := 0 } }]
      512 128 () _ (by decide)⟩

/-- C9: the default ingestion-pipeline hooks `before_rabbithole_insert_memory`,
`before_rabbithole_splits_text`, `after_rabbithole_splitted_text` and
`before_rabbithole_stores_documents` are each the identity on their document
argument, for every context object. -/
theorem rabbithole_identity_hooks :
    ∀ (Cat : Type) (cat : Cat) (doc : Document) (docs chunks : List Document),
      before_rabbithole_insert_memory doc cat = doc ∧
      before_rabbithole_splits_text doc cat = doc ∧
      after_rabbithole_splitted_text chunks cat = chunks ∧
      before_rabbithole_stores_documents docs cat = docs :=
  fun Cat cat doc docs chunks => ⟨rfl, rfl, rfl, rfl⟩

/-- C10: called with an empty list of retrieved memories, the default
`agent_prompt_episodic_memories` and `agent_prompt_declarative_memories` hooks
both return the empty string, for every verbal-timedelta helper, current time
and context object. -/
theorem agent_prompt_empty_memories :
    ∀ (Score Cat : Type) (verbal_timedelta : Int → String) (time_now : Int)
      (cat : Cat),
      agent_prompt_episodic_memories verbal_timedelta time_now
          ([] : List (Document × Score)) cat = "" ∧
      agent_prompt_declarative_memories ([] : List (Document × Score)) cat = "" :=
  fun Score Cat verbal_timedelta time_now cat => ⟨rfl, rfl⟩
